import Mathlib

/-!
Verification of the `l2_saas_weather` repository against its specification.

The repository has two independent components:

* `weather_app/app.py` — a Flask HTTP proxy in front of the weatherapi.com
  provider, with three POST endpoints (current / forecast / history), a
  token-authorization decorator and an execution-timing decorator.
* `isw_data_parser/dataset.py` — a one-shot batch tool that walks a
  directory tree and writes a two-column CSV dataset.

The embedding below is shallow: Python values decoded from JSON are the
inductive type `PyVal` (JSON `null` decodes to Python `None`, modelled by
`PyVal.none`); Python exceptions are the `Except PyExn` monad; the external
HTTP library and `json.loads` are parameters (`http`, `loads`) of the
functions that use them, so theorems quantify over the provider's behaviour;
wall-clock readings of `datetime.now()` are modelled as natural-number ticks
`t0` (first reading) and `t0 + elapsed` (second reading, later or equal).
Each Lean definition mirrors one Python function of the source and keeps its
name.
-/

set_option maxHeartbeats 1000000

namespace WeatherApp

/-- Python values as produced by `json.loads` / held in request dicts.
JSON `null` decodes to Python `None` (`PyVal.none`); a JSON object decodes
to a Python `dict`, modelled as an association list with distinct keys. -/
inductive PyVal where
  | none
  | bool (b : Bool)
  | int (n : Int)
  | str (s : String)
  | list (xs : List PyVal)
  | dict (fields : List (String × PyVal))

/-- Python truthiness (`bool(v)`): `None`, `False`, `0`, `""`, `[]`, `{}`
are falsy, everything else truthy.  Used by `if lang:` / `if end_dt:` and
by `if not json_data.get('weather')`. -/
def pyTruthy : PyVal → Bool
  | .none => false
  | .bool b => b
  | .int n => n != 0
  | .str s => s.length != 0
  | .list xs => !xs.isEmpty
  | .dict fs => !fs.isEmpty

/-- The Python test `v is None`. -/
def PyVal.isNone : PyVal → Bool
  | .none => true
  | _ => false

/-- `d.get(k)` on a Python dict: the stored value, or `None` when the key
is absent.  A stored JSON `null` also comes back as `None`. -/
def dictGet (fs : List (String × PyVal)) (k : String) : PyVal :=
  match fs.lookup k with
  | some v => v
  | Option.none => PyVal.none

/-- Exceptions that can escape a request handler. -/
structure InvalidUsage where
  message : String
  status_code : Nat
  payload : Option (List (String × PyVal))

/-- Python exceptions relevant to the app: the app's own `InvalidUsage`
(handled by `handle_invalid_usage`), `json.JSONDecodeError` from
`json.loads`, and `AttributeError` from calling `.get` on a non-dict.
Only `invalidUsage` is caught anywhere; the rest surface as a generic
server fault. -/
inductive PyExn where
  | invalidUsage (e : InvalidUsage)
  | jsonDecodeError (msg : String)
  | attributeError (msg : String)

/-- `InvalidUsage.__init__(message, status_code=None, payload=None)`:
`status_code` defaults to the class attribute 400 when not supplied. -/
def InvalidUsage.init (message : String) (status_code : Option Nat)
    (payload : Option (List (String × PyVal))) : InvalidUsage :=
  { message := message, status_code := status_code.getD 400, payload := payload }

/-- `rv[k] = v` on a Python dict modelled as an association list: replace
the value when the key is present, otherwise append the binding. -/
def dictSet (fs : List (String × PyVal)) (k : String) (v : PyVal) :
    List (String × PyVal) :=
  if fs.any (fun p => p.1 == k) then
    fs.map (fun p => if p.1 == k then (k, v) else p)
  else fs ++ [(k, v)]

/-- `d.update(other)` on a Python dict: set each binding of `other` in turn. -/
def dictUpdate (fs : List (String × PyVal)) :
    List (String × PyVal) → List (String × PyVal)
  | [] => fs
  | (k, v) :: rest => dictUpdate (dictSet fs k v) rest

/-- `InvalidUsage.to_dict`: `rv = dict(self.payload or ()); rv["message"] =
self.message; return rv`. -/
def InvalidUsage.to_dict (e : InvalidUsage) : List (String × PyVal) :=
  let rv : List (String × PyVal) :=
    match e.payload with
    | some fs => if fs.isEmpty then [] else fs
    | Option.none => []
  dictSet rv "message" (PyVal.str e.message)

/-- `handle_invalid_usage`: serialize `error.to_dict` as the JSON body and
use `error.status_code` as the HTTP status. -/
def handle_invalid_usage (e : InvalidUsage) : Nat × List (String × PyVal) :=
  (e.status_code, e.to_dict)

/-- `.get(k)` on an arbitrary Python value: works on dicts, raises
`AttributeError` otherwise (e.g. when the parsed body is not an object). -/
def PyVal.get (v : PyVal) (k : String) : Except PyExn PyVal :=
  match v with
  | .dict fs => Except.ok (dictGet fs k)
  | _ => Except.error (PyExn.attributeError "get")

/-- The Python comparison `token == API_TOKEN`, where `token` is a decoded
JSON value and `API_TOKEN = getenv('API_TOKEN')` is a `str` or `None`.
A Python `str` equals only an equal `str`; `None` equals only `None`;
every other combination is unequal. -/
def pyEqOptStr : PyVal → Option String → Bool
  | .str s, some t => s == t
  | .none, Option.none => true
  | _, _ => false

/-- An environment value (`str` or `None`) as the Python value it is. -/
def pyOfEnv : Option String → PyVal
  | some s => .str s
  | Option.none => .none

/-- `url_base_url = 'http://api.weatherapi.com/v1'` (module-level constant). -/
def url_base_url : String := "http://api.weatherapi.com/v1"

/-- One outbound call made through `requests.request(method, url, params=...)`. -/
structure ProviderRequest where
  method : String
  url : String
  params : List (String × PyVal)

/-- The provider's reply as seen by `requests`: a status code and a body text.
The app never reads any other part of the response. -/
structure HttpResponse where
  status : Nat
  text : String

/-- `get_current_weather(q, lang=None)`: build the query (`key`, `q`, and
`lang` only when truthy), issue one GET to `{url_base_url}/current.json`,
and decode the response body with `json.loads`.  Returns the request that
was issued together with the decoded result; a `json.loads` failure is the
(unhandled) `JSONDecodeError`. -/
def get_current_weather (weatherApiKey : Option String)
    (http : ProviderRequest → HttpResponse)
    (loads : String → Except String PyVal)
    (q lang : PyVal) : ProviderRequest × Except PyExn PyVal :=
  let url_endpoint := "current.json"
  let url := url_base_url ++ "/" ++ url_endpoint
  let params := [("key", pyOfEnv weatherApiKey), ("q", q)]
  let params := if pyTruthy lang then params ++ [("lang", lang)] else params
  let req : ProviderRequest := { method := "GET", url := url, params := params }
  let response := http req
  (req, match loads response.text with
        | Except.ok v => Except.ok v
        | Except.error m => Except.error (PyExn.jsonDecodeError m))

/-- `get_weather_forecast(q, days, lang=None)`: query `key`, `q`, `days`
(always, verbatim), plus `lang` when truthy; GET `{url_base_url}/forecast.json`;
decode the body. -/
def get_weather_forecast (weatherApiKey : Option String)
    (http : ProviderRequest → HttpResponse)
    (loads : String → Except String PyVal)
    (q days lang : PyVal) : ProviderRequest × Except PyExn PyVal :=
  let url_endpoint := "forecast.json"
  let url := url_base_url ++ "/" ++ url_endpoint
  let params := [("key", pyOfEnv weatherApiKey), ("q", q), ("days", days)]
  let params := if pyTruthy lang then params ++ [("lang", lang)] else params
  let req : ProviderRequest := { method := "GET", url := url, params := params }
  let response := http req
  (req, match loads response.text with
        | Except.ok v => Except.ok v
        | Except.error m => Except.error (PyExn.jsonDecodeError m))

/-- `get_weather_history(q, dt, end_dt=None, lang=None)`: query `key`, `q`,
`dt` (always, verbatim), plus `end_dt` and `lang` each only when truthy;
GET `{url_base_url}/history.json`; decode the body. -/
def get_weather_history (weatherApiKey : Option String)
    (http : ProviderRequest → HttpResponse)
    (loads : String → Except String PyVal)
    (q dt end_dt lang : PyVal) : ProviderRequest × Except PyExn PyVal :=
  let url_endpoint := "history.json"
  let url := url_base_url ++ "/" ++ url_endpoint
  let params := [("key", pyOfEnv weatherApiKey), ("q", q), ("dt", dt)]
  let params := if pyTruthy end_dt then params ++ [("end_dt", end_dt)] else params
  let params := if pyTruthy lang then params ++ [("lang", lang)] else params
  let req : ProviderRequest := { method := "GET", url := url, params := params }
  let response := http req
  (req, match loads response.text with
        | Except.ok v => Except.ok v
        | Except.error m => Except.error (PyExn.jsonDecodeError m))

/-- The outcome of a wrapped endpoint body: either an exception or the
response dict, together with the list of provider requests actually issued
before the outcome was produced. -/
abbrev EndpointResult := Except PyExn (List (String × PyVal)) × List ProviderRequest

/-- The `authorize_and_validate_request` decorator: re-reads the parsed
body, raises `InvalidUsage("token is required", 400)` when
`json_data.get("token") is None`, then `InvalidUsage("wrong API token", 403)`
when `token != API_TOKEN`, then `InvalidUsage("weather params must be
provided", 400)` when `json_data.get('weather')` is falsy, and only then
invokes the wrapped function.  No provider request is issued on any failure. -/
def authorize_and_validate_request (apiToken : Option String)
    (json_data : PyVal) (f : Unit → EndpointResult) : EndpointResult :=
  match json_data.get "token" with
  | Except.error e => (Except.error e, [])
  | Except.ok tokVal =>
    if tokVal.isNone then
      (Except.error (PyExn.invalidUsage (InvalidUsage.init "token is required" (some 400) Option.none)), [])
    else
      let token := tokVal
      if !(pyEqOptStr token apiToken) then
        (Except.error (PyExn.invalidUsage (InvalidUsage.init "wrong API token" (some 403) Option.none)), [])
      else
        match json_data.get "weather" with
        | Except.error e => (Except.error e, [])
        | Except.ok w =>
          if !(pyTruthy w) then
            (Except.error (PyExn.invalidUsage (InvalidUsage.init "weather params must be provided" (some 400) Option.none)), [])
          else f ()

/-- Rendering of a model timestamp, standing for `datetime.isoformat()`.
Timestamps are modelled as integer ticks; `isoformat` on real datetimes is
strictly monotone, so ordering facts about ticks transfer to the rendered
strings. -/
def isoformat (t : Nat) : String := toString t

/-- Rendering of `str(end_dt - start_dt)` (a `timedelta` string). -/
def durationStr (start finish : Nat) : String := toString (finish - start)

/-- The `add_execution_time_params_to_response` decorator: read the clock
(tick `t0`), run the handler, read the clock again (tick `t0 + elapsed`,
never earlier than the first reading), and merge the three timing fields
into the handler's response dict with `response.update(...)`.  An exception
from the handler propagates unchanged. -/
def add_execution_time_params_to_response (t0 elapsed : Nat)
    (f : Unit → EndpointResult) : EndpointResult :=
  let start_dt := t0
  let r := f ()
  let end_dt := t0 + elapsed
  match r with
  | (Except.error e, calls) => (Except.error e, calls)
  | (Except.ok response, calls) =>
    let execution_time_params : List (String × PyVal) :=
      [("event_start_datetime", PyVal.str (isoformat start_dt)),
       ("event_finished_datetime", PyVal.str (isoformat end_dt)),
       ("event_duration", PyVal.str (durationStr start_dt end_dt))]
    (Except.ok (dictUpdate response execution_time_params), calls)

/-- The body of `current_weather_endpoint`: re-read the parsed JSON, take
`weather.q` and `weather.lang`, call `get_current_weather`, and return
`{"weather": <decoded provider JSON>}`. -/
def current_weather_endpoint_body (weatherApiKey : Option String)
    (http : ProviderRequest → HttpResponse)
    (loads : String → Except String PyVal)
    (json_data : PyVal) : EndpointResult :=
  match json_data.get "weather" with
  | Except.error e => (Except.error e, [])
  | Except.ok weather_params =>
    match weather_params.get "q" with
    | Except.error e => (Except.error e, [])
    | Except.ok q =>
      match weather_params.get "lang" with
      | Except.error e => (Except.error e, [])
      | Except.ok lang =>
        let pr := get_current_weather weatherApiKey http loads q lang
        match pr.2 with
        | Except.error e => (Except.error e, [pr.1])
        | Except.ok weather => (Except.ok [("weather", weather)], [pr.1])

/-- The body of `weather_forecast_endpoint`: take `weather.q`,
`weather.days`, `weather.lang`, call `get_weather_forecast`, wrap the
result under the `weather` key. -/
def weather_forecast_endpoint_body (weatherApiKey : Option String)
    (http : ProviderRequest → HttpResponse)
    (loads : String → Except String PyVal)
    (json_data : PyVal) : EndpointResult :=
  match json_data.get "weather" with
  | Except.error e => (Except.error e, [])
  | Except.ok weather_params =>
    match weather_params.get "q" with
    | Except.error e => (Except.error e, [])
    | Except.ok q =>
      match weather_params.get "days" with
      | Except.error e => (Except.error e, [])
      | Except.ok days =>
        match weather_params.get "lang" with
        | Except.error e => (Except.error e, [])
        | Except.ok lang =>
          let pr := get_weather_forecast weatherApiKey http loads q days lang
          match pr.2 with
          | Except.error e => (Except.error e, [pr.1])
          | Except.ok weather => (Except.ok [("weather", weather)], [pr.1])

/-- The body of `weather_history_endpoint`: take `weather.q`, `weather.dt`,
`weather.end_dt`, `weather.lang`, call `get_weather_history`, wrap the
result under the `weather` key. -/
def weather_history_endpoint_body (weatherApiKey : Option String)
    (http : ProviderRequest → HttpResponse)
    (loads : String → Except String PyVal)
    (json_data : PyVal) : EndpointResult :=
  match json_data.get "weather" with
  | Except.error e => (Except.error e, [])
  | Except.ok weather_params =>
    match weather_params.get "q" with
    | Except.error e => (Except.error e, [])
    | Except.ok q =>
      match weather_params.get "dt" with
      | Except.error e => (Except.error e, [])
      | Except.ok dt =>
        match weather_params.get "end_dt" with
        | Except.error e => (Except.error e, [])
        | Except.ok end_dt =>
          match weather_params.get "lang" with
          | Except.error e => (Except.error e, [])
          | Except.ok lang =>
            let pr := get_weather_history weatherApiKey http loads q dt end_dt lang
            match pr.2 with
            | Except.error e => (Except.error e, [pr.1])
            | Except.ok weather => (Except.ok [("weather", weather)], [pr.1])

/-- `POST /content/api/v1/integration/weather/current`, with both decorators
applied in source order: authorization/shape check outermost, timing wrap
around the handler body. -/
def current_weather_endpoint (apiToken weatherApiKey : Option String)
    (http : ProviderRequest → HttpResponse)
    (loads : String → Except String PyVal)
    (t0 elapsed : Nat) (json_data : PyVal) : EndpointResult :=
  authorize_and_validate_request apiToken json_data (fun _ =>
    add_execution_time_params_to_response t0 elapsed (fun _ =>
      current_weather_endpoint_body weatherApiKey http loads json_data))

/-- `POST /content/api/v1/integration/weather/forecast`, both decorators
applied in source order. -/
def weather_forecast_endpoint (apiToken weatherApiKey : Option String)
    (http : ProviderRequest → HttpResponse)
    (loads : String → Except String PyVal)
    (t0 elapsed : Nat) (json_data : PyVal) : EndpointResult :=
  authorize_and_validate_request apiToken json_data (fun _ =>
    add_execution_time_params_to_response t0 elapsed (fun _ =>
      weather_forecast_endpoint_body weatherApiKey http loads json_data))

/-- `POST /content/api/v1/integration/weather/history`, both decorators
applied in source order. -/
def weather_history_endpoint (apiToken weatherApiKey : Option String)
    (http : ProviderRequest → HttpResponse)
    (loads : String → Except String PyVal)
    (t0 elapsed : Nat) (json_data : PyVal) : EndpointResult :=
  authorize_and_validate_request apiToken json_data (fun _ =>
    add_execution_time_params_to_response t0 elapsed (fun _ =>
      weather_history_endpoint_body weatherApiKey http loads json_data))

/-- The HTTP response Flask produces from an endpoint outcome: a success
dict becomes a 200 with the dict as body; a raised `InvalidUsage` is caught
by `handle_invalid_usage`; any other exception is an unhandled server fault
(500, no structured body). -/
def http_response_of (r : Except PyExn (List (String × PyVal))) :
    Nat × List (String × PyVal) :=
  match r with
  | Except.ok d => (200, d)
  | Except.error (PyExn.invalidUsage e) => handle_invalid_usage e
  | Except.error _ => (500, [])

end WeatherApp

namespace IswData

/-- A directory tree as `os.walk` sees it: the files directly in the
directory (name paired with UTF-8 decoded content) and the named
subdirectories. -/
inductive FileTree where
  | mk (files : List (String × String)) (subdirs : List (String × FileTree))

/-- Index of the last '.' in a list of characters, if any. -/
def lastDotIdx (cs : List Char) : Option Nat :=
  match cs.reverse.findIdx? (fun c => c == '.') with
  | some j => some (cs.length - 1 - j)
  | Option.none => Option.none

/-- `os.path.splitext` restricted to a bare file name (no path separator):
split at the last '.', except that leading dots alone never start an
extension (so ".hidden" has no extension). -/
def splitext (s : String) : String × String :=
  let cs := s.toList
  match lastDotIdx cs with
  | Option.none => (s, "")
  | some i =>
    if (cs.take i).all (fun c => c == '.') then (s, "")
    else (String.mk (cs.take i), String.mk (cs.drop i))

/-- `re.sub('\n', ' ', text)`: replace every newline character by one space. -/
def subNewlines (s : String) : String :=
  String.mk (s.toList.map (fun c => if c == '\n' then ' ' else c))

/-- The files yielded by `os.walk` in top-down order: the files of the root
directory first, then each subdirectory's files recursively, in listed
order. -/
def walkFiles : FileTree → List (String × String)
  | .mk files subdirs => files ++ walkFilesOfSubdirs subdirs
where
  walkFilesOfSubdirs : List (String × FileTree) → List (String × String)
    | [] => []
    | (_, d) :: rest => walkFiles d ++ walkFilesOfSubdirs rest

/-- `read_data_from_files(root_folder)`: for every file of the walk, emit
one record pairing the file's base name (`splitext(file)[0]`) with its
content with newlines flattened to spaces; records are appended in walk
order, never deduplicated. -/
def read_data_from_files (root_folder : FileTree) : List (String × String) :=
  (walkFiles root_folder).map (fun fc => ((splitext fc.1).1, subNewlines fc.2))

/-- A CSV field needs quoting under Python's default QUOTE_MINIMAL dialect
iff it contains the delimiter, the quote character, or a line-break
character. -/
def needsQuoting (s : String) : Bool :=
  s.toList.any (fun c => c == ',' || c == '"' || c == '\r' || c == '\n')

/-- Double every quote character (the csv writer's escaping inside a quoted
field). -/
def escapeQuotes : List Char → List Char
  | [] => []
  | c :: cs =>
    if c == '"' then '"' :: '"' :: escapeQuotes cs
    else c :: escapeQuotes cs

/-- One field as Python's `csv.writer` (default dialect) emits it: quoted
with inner quotes doubled when quoting is needed, verbatim otherwise. -/
def writeField (s : String) : List Char :=
  if needsQuoting s then '"' :: (escapeQuotes s.toList ++ ['"'])
  else s.toList

/-- One two-field row as `csv.writer.writerow` emits it: the two fields
separated by ',' and terminated by the default lineterminator `\r\n`. -/
def writeRow (r : String × String) : List Char :=
  writeField r.1 ++ ',' :: writeField r.2 ++ ['\r', '\n']

/-- `datasets/dataset.csv` (fixed output path of the builder). -/
def dataset_path : String := "datasets/dataset.csv"

/-- The bytes `create_csv_dataset(key_value_list)` writes: the fixed header
row `('Date', 'Text')` followed by one row per record, in order. -/
def create_csv_dataset (key_value_list : List (String × String)) : List Char :=
  writeRow ("Date", "Text") ++ (key_value_list.map writeRow).flatten

/-- Python file-open modes relevant here: 'w' truncates, 'a' appends. -/
inductive OpenMode where
  | write
  | append

/-- The mode `create_csv_dataset` opens the output file with:
`open(dataset_path, 'w', newline='', encoding='utf-8')`. -/
def create_csv_dataset_open_mode : OpenMode := OpenMode.write

/-- Writing `data` to a file that currently holds `existing` (or does not
exist), under a given open mode. -/
def writeWithMode (mode : OpenMode) (existing : Option (List Char))
    (data : List Char) : List Char :=
  match mode with
  | .write => data
  | .append => (existing.getD []) ++ data

/-- One run of the builder's write phase against the current on-disk state
of `datasets/dataset.csv`. -/
def run_create_csv_dataset (existing : Option (List Char))
    (key_value_list : List (String × String)) : List Char :=
  writeWithMode create_csv_dataset_open_mode existing (create_csv_dataset key_value_list)

/-- The on-disk state after `n` further runs of the builder over the same
records, starting from state `st`. -/
def runTimes : Nat → Option (List Char) → List (String × String) → Option (List Char)
  | 0, st, _ => st
  | n + 1, st, recs => runTimes n (some (run_create_csv_dataset st recs)) recs

/-- A character that ends an unquoted CSV field: the delimiter or a
line-break character. -/
def isStopChar (c : Char) : Bool := c == ',' || c == '\r' || c == '\n'

mutual

/-- Standard CSV reading, quoted field: characters after an opening quote,
with a doubled quote read as one literal quote, up to the closing quote. -/
def parseQuoted : List Char → List Char × List Char
  | [] => ([], [])
  | c :: rest =>
    if c == '"' then parseQuotedClose rest
    else
      let (f, r) := parseQuoted rest
      (c :: f, r)
  termination_by cs => cs.length

/-- Standard CSV reading, just after a quote character inside a quoted
field: a second quote is a literal quote and the field continues; anything
else ends the field. -/
def parseQuotedClose : List Char → List Char × List Char
  | [] => ([], [])
  | c :: rest =>
    if c == '"' then
      let (f, r) := parseQuoted rest
      ('"' :: f, r)
    else ([], c :: rest)
  termination_by cs => cs.length

end

/-- Standard CSV reading, unquoted field: characters up to (excluding) the
next delimiter or line break. -/
def parseUnquoted : List Char → List Char × List Char
  | [] => ([], [])
  | c :: rest =>
    if c == ',' || c == '\r' || c == '\n' then ([], c :: rest)
    else
      let (f, r) := parseUnquoted rest
      (c :: f, r)

/-- One CSV field: quoted when it starts with the quote character,
unquoted otherwise. -/
def parseField (cs : List Char) : String × List Char :=
  match cs with
  | [] => ("", [])
  | c :: rest =>
    if c == '"' then
      let (f, r) := parseQuoted rest
      (String.mk f, r)
    else
      let (f, r) := parseUnquoted (c :: rest)
      (String.mk f, r)

/-- One CSV record: fields separated by ',', terminated by a line break
(CRLF, CR or LF) or the end of input.  `fuel` bounds the recursion; it is
never exhausted on input at least as long as the record. -/
def parseRec : Nat → List Char → List String × List Char
  | 0, cs => ([], cs)
  | fuel + 1, cs =>
    let (f, r) := parseField cs
    match r with
    | [] => ([f], [])
    | c :: r2 =>
      if c == ',' then
        let (fs, r3) := parseRec fuel r2
        (f :: fs, r3)
      else if c == '\r' then
        match r2 with
        | [] => ([f], [])
        | c2 :: r3 => if c2 == '\n' then ([f], r3) else ([f], c2 :: r3)
      else if c == '\n' then ([f], r2)
      else ([f], c :: r2)

/-- All CSV records of the input, one after another. -/
def parseRowsAux : Nat → List Char → List (List String)
  | 0, _ => []
  | fuel + 1, cs =>
    if cs.isEmpty then []
    else
      let (row, rest) := parseRec (fuel + 1) cs
      row :: parseRowsAux fuel rest

/-- A standard CSV parser for the writer's dialect: the list of records,
each a list of fields. -/
def parseCsv (cs : List Char) : List (List String) :=
  parseRowsAux (cs.length + 1) cs

end IswData

namespace IswData

theorem mk_toList (s : String) : String.mk s.toList = s := rfl

theorem parseQuoted_escape (cs : List Char) (d : Char) (rest : List Char)
    (hd : (d == '"') = false) :
    parseQuoted (escapeQuotes cs ++ '"' :: d :: rest) = (cs, d :: rest) := by
  induction cs with
  | nil => simp [escapeQuotes, parseQuoted, parseQuotedClose, hd]
  | cons c cs ih =>
    by_cases hc : c = '"'
    · subst hc
      simp [escapeQuotes, parseQuoted, parseQuotedClose, ih]
    · have hcb : (c == '"') = false := by simpa using hc
      simp [escapeQuotes, hcb, parseQuoted, ih]

theorem parseUnquoted_append (cs : List Char) (d : Char) (rest : List Char)
    (hcs : ∀ c ∈ cs, isStopChar c = false)
    (hd : isStopChar d = true) :
    parseUnquoted (cs ++ d :: rest) = (cs, d :: rest) := by
  induction cs with
  | nil =>
    simp only [List.nil_append, parseUnquoted]
    rw [if_pos (by simpa [isStopChar] using hd)]
  | cons c cs ih =>
    have hc : (c == ',' || c == '\r' || c == '\n') = false := by
      simpa [isStopChar] using hcs c (by simp)
    have hrest : ∀ x ∈ cs, isStopChar x = false := fun x hx => hcs x (by simp [hx])
    simp only [List.cons_append, parseUnquoted]
    rw [if_neg (by simp [hc])]
    simp only [List.append_eq]
    rw [ih hrest]

theorem stop_not_quote (d : Char) (hd : isStopChar d = true) : (d == '"') = false := by
  simp only [isStopChar, Bool.or_eq_true, beq_iff_eq] at hd
  rcases hd with (h | h) | h <;> simp [h]

theorem needsQuoting_false_elim (s : String) (hq : needsQuoting s = false) :
    ∀ c ∈ s.toList, (c == ',') = false ∧ (c == '"') = false ∧
      (c == '\r') = false ∧ (c == '\n') = false := by
  intro c hc
  simp only [needsQuoting, List.any_eq_false] at hq
  have h := hq c hc
  simp only [Bool.or_eq_true, not_or, beq_iff_eq] at h
  obtain ⟨⟨⟨h1, h2⟩, h3⟩, h4⟩ := h
  exact ⟨by simp [h1], by simp [h2], by simp [h3], by simp [h4]⟩

theorem parseField_writeField (s : String) (d : Char) (rest : List Char)
    (hd : isStopChar d = true) :
    parseField (writeField s ++ d :: rest) = (s, d :: rest) := by
  have hdq := stop_not_quote d hd
  by_cases hq : needsQuoting s = true
  · have heq : writeField s ++ d :: rest = '"' :: (escapeQuotes s.toList ++ '"' :: d :: rest) := by
      simp [writeField, hq]
    rw [heq]
    simp only [parseField]
    rw [if_pos (by simp), parseQuoted_escape s.toList d rest hdq]
    simp [mk_toList]
  · have hq' : needsQuoting s = false := by simpa using hq
    have hnostop : ∀ c ∈ s.toList, isStopChar c = false := by
      intro c hc
      obtain ⟨h1, h2, h3, h4⟩ := needsQuoting_false_elim s hq' c hc
      simp [isStopChar, h1, h3, h4]
    have hnoq : ∀ c ∈ s.toList, (c == '"') = false := by
      intro c hc
      exact (needsQuoting_false_elim s hq' c hc).2.1
    have hw : writeField s = s.toList := by simp [writeField, hq']
    rw [hw]
    have hun := parseUnquoted_append s.toList d rest hnostop hd
    cases hs : s.toList with
    | nil =>
      have hse : s = "" := by
        have := congrArg String.mk hs
        simpa [mk_toList] using this
      subst hse
      simp only [List.nil_append, parseField]
      rw [if_neg (by simp [hdq])]
      rw [hs] at hun
      simp only [List.nil_append] at hun
      simp [hun]
    | cons c cs =>
      have hc : (c == '"') = false := hnoq c (by rw [hs]; exact List.mem_cons_self c cs)
      rw [hs] at hun
      simp only [List.cons_append, parseField]
      rw [if_neg (by simp [hc] : ¬(c == '"') = true)]
      rw [← List.cons_append, hun]
      have hmk : String.mk (c :: cs) = s := by rw [← hs, mk_toList]
      simp [hmk]

theorem parseRec_lastField (fuel : Nat) (b : String) (rest : List Char) :
    parseRec (fuel + 1) (writeField b ++ '\r' :: '\n' :: rest) = ([b], rest) := by
  simp only [parseRec]
  rw [parseField_writeField b '\r' ('\n' :: rest) (by decide)]
  rfl

theorem parseRec_writeRow (fuel : Nat) (r : String × String) (rest : List Char) :
    parseRec (fuel + 2) (writeRow r ++ rest) = ([r.1, r.2], rest) := by
  have hassoc : writeRow r ++ rest =
      writeField r.1 ++ ',' :: (writeField r.2 ++ '\r' :: '\n' :: rest) := by
    simp [writeRow]
  rw [hassoc]
  show parseRec (fuel + 1 + 1) _ = _
  simp only [parseRec]
  rw [parseField_writeField r.1 ',' _ (by decide)]
  show (r.1 :: (parseRec (fuel + 1) (writeField r.2 ++ '\r' :: '\n' :: rest)).1,
        (parseRec (fuel + 1) (writeField r.2 ++ '\r' :: '\n' :: rest)).2) = _
  rw [parseRec_lastField fuel r.2 rest]

theorem writeRow_length_ge (r : String × String) : 2 ≤ (writeRow r).length := by
  simp [writeRow]
  omega

theorem writeRow_ne_nil (r : String × String) : writeRow r ≠ [] := by
  intro h
  have := writeRow_length_ge r
  rw [h] at this
  simp at this

theorem parseRowsAux_nil (fuel : Nat) : parseRowsAux fuel [] = [] := by
  cases fuel <;> simp [parseRowsAux]

theorem parseRowsAux_cons (fuel : Nat) (cs : List Char) (h : cs ≠ []) :
    parseRowsAux (fuel + 1) cs =
      (parseRec (fuel + 1) cs).1 :: parseRowsAux fuel (parseRec (fuel + 1) cs).2 := by
  simp only [parseRowsAux]
  rw [if_neg (by simpa [List.isEmpty_iff] using h)]

theorem parseRowsAux_writeRows (rows : List (String × String)) :
    ∀ fuel, rows.length + 1 ≤ fuel →
    parseRowsAux fuel ((rows.map writeRow).flatten) =
      rows.map (fun r => [r.1, r.2]) := by
  induction rows with
  | nil => intro fuel _; simp [parseRowsAux_nil]
  | cons r rows ih =>
    intro fuel hfuel
    obtain ⟨m, rfl⟩ : ∃ m, fuel = m + 1 := by
      cases fuel
      · omega
      · exact ⟨_, rfl⟩
    have hm : rows.length + 1 ≤ m := by simpa using hfuel
    obtain ⟨k, rfl⟩ : ∃ k, m = k + 1 := by
      cases m
      · omega
      · exact ⟨_, rfl⟩
    simp only [List.map_cons, List.flatten_cons]
    have hne : writeRow r ++ (rows.map writeRow).flatten ≠ [] := by
      intro h
      exact writeRow_ne_nil r (List.append_eq_nil.mp h).1
    rw [parseRowsAux_cons (k + 1) _ hne]
    rw [parseRec_writeRow k r ((rows.map writeRow).flatten)]
    rw [ih (k + 1) hm]

theorem flatten_writeRows_length (rows : List (String × String)) :
    2 * rows.length ≤ ((rows.map writeRow).flatten).length := by
  induction rows with
  | nil => simp
  | cons r rows ih =>
    simp only [List.map_cons, List.flatten_cons, List.length_append, List.length_cons]
    have := writeRow_length_ge r
    omega

theorem create_csv_dataset_eq_flatten (recs : List (String × String)) :
    create_csv_dataset recs = (((("Date", "Text")) :: recs).map writeRow).flatten := by
  simp [create_csv_dataset]

theorem parseCsv_create (recs : List (String × String)) :
    parseCsv (create_csv_dataset recs) =
      ["Date", "Text"] :: recs.map (fun r => [r.1, r.2]) := by
  rw [create_csv_dataset_eq_flatten, parseCsv]
  have hlen := flatten_writeRows_length ((("Date", "Text")) :: recs)
  have hfuel : ((("Date", "Text")) :: recs).length + 1 ≤
      (((((("Date", "Text")) :: recs).map writeRow).flatten).length + 1) := by
    simp only [List.length_cons] at hlen ⊢
    omega
  simpa using parseRowsAux_writeRows ((("Date", "Text")) :: recs) _ hfuel

theorem runTimes_eq (n : Nat) (hn : 1 ≤ n) (st : Option (List Char))
    (recs : List (String × String)) :
    runTimes n st recs = some (create_csv_dataset recs) := by
  induction n generalizing st with
  | zero => omega
  | succ m ih =>
    cases m with
    | zero => rfl
    | succ k => exact ih (by omega) _

end IswData

/-- C5: for every file in the input tree, `read_data_from_files` produces
exactly one record whose first component is the file's base name with its
extension stripped and whose second component is the file's content with
every newline replaced by a single space; duplicate base names across
subdirectories each produce their own record (shown on a concrete tree
with `a.txt` in two subdirectories). -/
theorem claim_C5_reader_one_record_per_file :
    ∀ root : IswData.FileTree,
      (IswData.read_data_from_files root).length = (IswData.walkFiles root).length ∧
      (∀ i : Nat, (IswData.read_data_from_files root).get? i =
        ((IswData.walkFiles root).get? i).map
          (fun fc => ((IswData.splitext fc.1).1, IswData.subNewlines fc.2))) ∧
      IswData.read_data_from_files
        (IswData.FileTree.mk []
          [("sub1", IswData.FileTree.mk [("a.txt", "x")] []),
           ("sub2", IswData.FileTree.mk [("a.txt", "y")] [])]) =
        [("a", "x"), ("a", "y")] := by
  intro root
  refine ⟨by simp [IswData.read_data_from_files], ?_, ?_⟩
  · intro i
    simp [IswData.read_data_from_files]
  · have hw : IswData.walkFiles
        (IswData.FileTree.mk []
          [("sub1", IswData.FileTree.mk [("a.txt", "x")] []),
           ("sub2", IswData.FileTree.mk [("a.txt", "y")] [])]) =
        [("a.txt", "x"), ("a.txt", "y")] := by
      simp [IswData.walkFiles, IswData.walkFiles.walkFilesOfSubdirs]
    rw [IswData.read_data_from_files, hw]
    rfl

/-- C6 counterexample: the claim quantifies over every list of input
records, but `create_csv_dataset` does not flatten newlines itself (only
`read_data_from_files` does).  For the record list `[("a", "x\ny")]` the
written CSV round-trips to exactly the original pair, so the newline
character does reappear in a field of the parsed output, contradicting the
claim's "no newline characters reappearing in any field". -/
theorem claim_C6_counterexample :
    IswData.parseCsv (IswData.create_csv_dataset [("a", "x\ny")]) =
      [["Date", "Text"], ["a", "x\ny"]] ∧
    ('\n' ∈ "x\ny".toList) := by
  constructor
  · rw [IswData.parseCsv_create]
    rfl
  · decide

/-- C6 (amended): for every list of N input records, `create_csv_dataset`
writes a CSV with exactly N+1 rows (fixed header `Date,Text` plus one row
per record) and parsing it back with a standard CSV parser reproduces the
original (name, text) pairs exactly; provided no input record contains a
newline character (as is the case for the text fields produced by
`read_data_from_files`, which flattens newlines before writing), no newline
character appears in any parsed field. -/
theorem claim_C6_csv_roundtrip (recs : List (String × String)) :
    IswData.parseCsv (IswData.create_csv_dataset recs) =
      ["Date", "Text"] :: recs.map (fun r => [r.1, r.2]) ∧
    (IswData.parseCsv (IswData.create_csv_dataset recs)).length = recs.length + 1 ∧
    ((∀ r ∈ recs, ¬ '\n' ∈ r.1.toList ∧ ¬ '\n' ∈ r.2.toList) →
      ∀ row ∈ IswData.parseCsv (IswData.create_csv_dataset recs),
        ∀ f ∈ row, ¬ '\n' ∈ f.toList) := by
  refine ⟨IswData.parseCsv_create recs, ?_, ?_⟩
  · rw [IswData.parseCsv_create]
    simp
  · intro hno row hrow f hf
    rw [IswData.parseCsv_create] at hrow
    rcases List.mem_cons.mp hrow with hhead | htail
    · subst hhead
      simp only [List.mem_cons, List.not_mem_nil, or_false] at hf
      rcases hf with h1 | h1
      · subst h1; decide
      · subst h1; decide
    · obtain ⟨r, hr, hrw⟩ := List.mem_map.mp htail
      subst hrw
      simp only [List.mem_cons, List.mem_singleton] at hf
      rcases hf with h1 | h1 | h1
      · subst h1; exact (hno r hr).1
      · subst h1; exact (hno r hr).2
      · exact absurd h1 (by simp)

/-- Witness for C6 at a concrete newline-free record list. -/
theorem claim_C6_csv_roundtrip_witness :
    IswData.parseCsv (IswData.create_csv_dataset [("a", "hello world"), ("b", "x")]) =
      ["Date", "Text"] :: [("a", "hello world"), ("b", "x")].map (fun r => [r.1, r.2]) ∧
    (∀ row ∈ IswData.parseCsv (IswData.create_csv_dataset [("a", "hello world"), ("b", "x")]),
        ∀ f ∈ row, ¬ '\n' ∈ f.toList) :=
  ⟨(claim_C6_csv_roundtrip _).1,
   (claim_C6_csv_roundtrip [("a", "hello world"), ("b", "x")]).2.2 (by decide)⟩

/-- C7: re-running the builder over the same input overwrites the previous
output file (the output mode is truncating write, not append): after any
positive number of repeated runs over the same records the file holds
exactly the freshly written CSV, whose parsed row count is N+1 and never
2N+1. -/
theorem claim_C7_rerun_overwrites (existing : Option (List Char))
    (recs : List (String × String)) (n : Nat) (hn : 1 ≤ n) :
    IswData.runTimes n existing recs = some (IswData.create_csv_dataset recs) ∧
    (IswData.parseCsv (IswData.create_csv_dataset recs)).length = recs.length + 1 ∧
    (1 ≤ recs.length →
      (IswData.parseCsv (IswData.create_csv_dataset recs)).length ≠
        2 * recs.length + 1) := by
  refine ⟨IswData.runTimes_eq n hn existing recs, ?_, ?_⟩
  · rw [IswData.parseCsv_create]
    simp
  · intro hlen
    rw [IswData.parseCsv_create]
    simp only [List.length_cons, List.length_map]
    omega

/-- Witness for C7: two runs over one record leave a 2-row file, not 3. -/
theorem claim_C7_rerun_overwrites_witness :
    IswData.runTimes 2 (some ['?']) [("a", "b")] =
      some (IswData.create_csv_dataset [("a", "b")]) ∧
    (IswData.parseCsv (IswData.create_csv_dataset [("a", "b")])).length = 2 ∧
    (IswData.parseCsv (IswData.create_csv_dataset [("a", "b")])).length ≠ 3 :=
  ⟨(claim_C7_rerun_overwrites (some ['?']) [("a", "b")] 2 (by decide)).1,
   (claim_C7_rerun_overwrites (some ['?']) [("a", "b")] 2 (by decide)).2.1,
   (claim_C7_rerun_overwrites (some ['?']) [("a", "b")] 2 (by decide)).2.2 (by decide)⟩

namespace WeatherApp

theorem authorize_token_missing (apiToken : Option String)
    (fs : List (String × PyVal)) (f : Unit → EndpointResult)
    (h : dictGet fs "token" = PyVal.none) :
    authorize_and_validate_request apiToken (PyVal.dict fs) f =
      (Except.error (PyExn.invalidUsage
        (InvalidUsage.init "token is required" (some 400) Option.none)), []) := by
  simp [authorize_and_validate_request, PyVal.get, h, PyVal.isNone]

theorem authorize_token_wrong (apiToken : Option String)
    (fs : List (String × PyVal)) (f : Unit → EndpointResult)
    (hne : (dictGet fs "token").isNone = false)
    (hmm : pyEqOptStr (dictGet fs "token") apiToken = false) :
    authorize_and_validate_request apiToken (PyVal.dict fs) f =
      (Except.error (PyExn.invalidUsage
        (InvalidUsage.init "wrong API token" (some 403) Option.none)), []) := by
  simp [authorize_and_validate_request, PyVal.get, hne, hmm]

theorem authorize_weather_missing (apiToken : Option String)
    (fs : List (String × PyVal)) (f : Unit → EndpointResult)
    (hne : (dictGet fs "token").isNone = false)
    (hmatch : pyEqOptStr (dictGet fs "token") apiToken = true)
    (hw : pyTruthy (dictGet fs "weather") = false) :
    authorize_and_validate_request apiToken (PyVal.dict fs) f =
      (Except.error (PyExn.invalidUsage
        (InvalidUsage.init "weather params must be provided" (some 400) Option.none)), []) := by
  simp [authorize_and_validate_request, PyVal.get, hne, hmatch, hw]

theorem authorize_pass (apiToken : Option String)
    (fs : List (String × PyVal)) (f : Unit → EndpointResult)
    (hne : (dictGet fs "token").isNone = false)
    (hmatch : pyEqOptStr (dictGet fs "token") apiToken = true)
    (hw : pyTruthy (dictGet fs "weather") = true) :
    authorize_and_validate_request apiToken (PyVal.dict fs) f = f () := by
  simp [authorize_and_validate_request, PyVal.get, hne, hmatch, hw]

end WeatherApp

open WeatherApp in
/-- C1: for every POST request to any of the three weather endpoints, a
body without a usable `token` yields the structured error 400 "token is
required"; a present token that does not equal `API_TOKEN` yields 403
"wrong API token"; a matching token with an absent or empty `weather`
field yields 400 "weather params must be provided"; the checks apply in
this order (each case leaves the later fields unconstrained), and in every
failing case the list of issued provider requests is empty. -/
theorem claim_C1_validation_order_and_no_call
    (apiToken weatherApiKey : Option String)
    (http : ProviderRequest → HttpResponse)
    (loads : String → Except String PyVal)
    (t0 elapsed : Nat) (fs : List (String × PyVal)) :
    (dictGet fs "token" = PyVal.none →
      ∀ r ∈ [current_weather_endpoint apiToken weatherApiKey http loads t0 elapsed (PyVal.dict fs),
             weather_forecast_endpoint apiToken weatherApiKey http loads t0 elapsed (PyVal.dict fs),
             weather_history_endpoint apiToken weatherApiKey http loads t0 elapsed (PyVal.dict fs)],
        http_response_of r.1 = (400, [("message", PyVal.str "token is required")]) ∧
        r.2 = []) ∧
    ((dictGet fs "token").isNone = false →
      pyEqOptStr (dictGet fs "token") apiToken = false →
      ∀ r ∈ [current_weather_endpoint apiToken weatherApiKey http loads t0 elapsed (PyVal.dict fs),
             weather_forecast_endpoint apiToken weatherApiKey http loads t0 elapsed (PyVal.dict fs),
             weather_history_endpoint apiToken weatherApiKey http loads t0 elapsed (PyVal.dict fs)],
        http_response_of r.1 = (403, [("message", PyVal.str "wrong API token")]) ∧
        r.2 = []) ∧
    ((dictGet fs "token").isNone = false →
      pyEqOptStr (dictGet fs "token") apiToken = true →
      pyTruthy (dictGet fs "weather") = false →
      ∀ r ∈ [current_weather_endpoint apiToken weatherApiKey http loads t0 elapsed (PyVal.dict fs),
             weather_forecast_endpoint apiToken weatherApiKey http loads t0 elapsed (PyVal.dict fs),
             weather_history_endpoint apiToken weatherApiKey http loads t0 elapsed (PyVal.dict fs)],
        http_response_of r.1 = (400, [("message", PyVal.str "weather params must be provided")]) ∧
        r.2 = []) := by
  refine ⟨?_, ?_, ?_⟩
  · intro h r hr
    simp only [current_weather_endpoint, weather_forecast_endpoint,
      weather_history_endpoint, List.mem_cons, List.not_mem_nil, or_false] at hr
    rcases hr with hr | hr | hr <;>
      (subst hr; rw [authorize_token_missing apiToken fs _ h]; exact ⟨rfl, rfl⟩)
  · intro hne hmm r hr
    simp only [current_weather_endpoint, weather_forecast_endpoint,
      weather_history_endpoint, List.mem_cons, List.not_mem_nil, or_false] at hr
    rcases hr with hr | hr | hr <;>
      (subst hr; rw [authorize_token_wrong apiToken fs _ hne hmm]; exact ⟨rfl, rfl⟩)
  · intro hne hmatch hw r hr
    simp only [current_weather_endpoint, weather_forecast_endpoint,
      weather_history_endpoint, List.mem_cons, List.not_mem_nil, or_false] at hr
    rcases hr with hr | hr | hr <;>
      (subst hr; rw [authorize_weather_missing apiToken fs _ hne hmatch hw]; exact ⟨rfl, rfl⟩)

open WeatherApp in
/-- Witness for C1: concrete requests hitting each of the three failure
branches on the current-weather endpoint. -/
theorem claim_C1_validation_order_and_no_call_witness :
    (http_response_of (current_weather_endpoint (some "T") (some "K")
        (fun _ => { status := 200, text := "x" })
        (fun _ => Except.ok PyVal.none) 0 0 (PyVal.dict [])).1 =
      (400, [("message", PyVal.str "token is required")])) ∧
    (http_response_of (current_weather_endpoint (some "T") (some "K")
        (fun _ => { status := 200, text := "x" })
        (fun _ => Except.ok PyVal.none) 0 0
        (PyVal.dict [("token", PyVal.str "WRONG")])).1 =
      (403, [("message", PyVal.str "wrong API token")])) ∧
    (http_response_of (current_weather_endpoint (some "T") (some "K")
        (fun _ => { status := 200, text := "x" })
        (fun _ => Except.ok PyVal.none) 0 0
        (PyVal.dict [("token", PyVal.str "T")])).1 =
      (400, [("message", PyVal.str "weather params must be provided")])) :=
  ⟨((claim_C1_validation_order_and_no_call (some "T") (some "K")
      (fun _ => { status := 200, text := "x" })
      (fun _ => Except.ok PyVal.none) 0 0 []).1 rfl _ (by simp)).1,
   ((claim_C1_validation_order_and_no_call (some "T") (some "K")
      (fun _ => { status := 200, text := "x" })
      (fun _ => Except.ok PyVal.none) 0 0 [("token", PyVal.str "WRONG")]).2.1
      rfl rfl _ (by simp)).1,
   ((claim_C1_validation_order_and_no_call (some "T") (some "K")
      (fun _ => { status := 200, text := "x" })
      (fun _ => Except.ok PyVal.none) 0 0 [("token", PyVal.str "T")]).2.2
      rfl rfl rfl _ (by simp)).1⟩

open WeatherApp in
/-- C9: a body whose `token` field is explicitly JSON null is treated
exactly like a body with no `token` field: the `is None` check fires first,
so the response is 400 "token is required" and never 403 — for every value
of `API_TOKEN`, including the unset environment (`Option.none`). -/
theorem claim_C9_null_token_like_missing
    (apiToken weatherApiKey : Option String)
    (http : ProviderRequest → HttpResponse)
    (loads : String → Except String PyVal)
    (t0 elapsed : Nat) (fs : List (String × PyVal))
    (hnull : fs.lookup "token" = some PyVal.none) :
    ∀ r ∈ [current_weather_endpoint apiToken weatherApiKey http loads t0 elapsed (PyVal.dict fs),
           weather_forecast_endpoint apiToken weatherApiKey http loads t0 elapsed (PyVal.dict fs),
           weather_history_endpoint apiToken weatherApiKey http loads t0 elapsed (PyVal.dict fs)],
      http_response_of r.1 = (400, [("message", PyVal.str "token is required")]) ∧
      r.1 ≠ Except.error (PyExn.invalidUsage
        (InvalidUsage.init "wrong API token" (some 403) Option.none)) ∧
      r.2 = [] := by
  have hget : dictGet fs "token" = PyVal.none := by
    simp [dictGet, hnull]
  intro r hr
  simp only [current_weather_endpoint, weather_forecast_endpoint,
    weather_history_endpoint, List.mem_cons, List.not_mem_nil, or_false] at hr
  rcases hr with hr | hr | hr <;>
    (subst hr; rw [authorize_token_missing apiToken fs _ hget];
     exact ⟨rfl, by intro hcontra; simp [InvalidUsage.init] at hcontra, rfl⟩)

open WeatherApp in
/-- Witness for C9: token explicitly null while `API_TOKEN` is unset. -/
theorem claim_C9_null_token_like_missing_witness :
    http_response_of (current_weather_endpoint Option.none (some "K")
        (fun _ => { status := 200, text := "x" })
        (fun _ => Except.ok PyVal.none) 0 0
        (PyVal.dict [("token", PyVal.none), ("weather", PyVal.dict [("q", PyVal.str "P")])])).1 =
      (400, [("message", PyVal.str "token is required")]) :=
  (claim_C9_null_token_like_missing Option.none (some "K")
      (fun _ => { status := 200, text := "x" })
      (fun _ => Except.ok PyVal.none) 0 0
      [("token", PyVal.none), ("weather", PyVal.dict [("q", PyVal.str "P")])]
      rfl _ (by simp)).1

open WeatherApp in
/-- C2: for every well-formed, authorized current-weather request whose
provider response body decodes to `w`, the success body is exactly the
`weather` key holding `w` plus the three timing fields, and the finish
tick is never below the start tick. -/
theorem claim_C2_current_success_shape
    (apiToken weatherApiKey : Option String)
    (http : ProviderRequest → HttpResponse)
    (loads : String → Except String PyVal)
    (t0 elapsed : Nat) (fs wfs : List (String × PyVal)) (tok : String) (w : PyVal)
    (htok : dictGet fs "token" = PyVal.str tok)
    (hauth : apiToken = some tok)
    (hw : dictGet fs "weather" = PyVal.dict wfs)
    (hne : wfs ≠ [])
    (hdecode : loads ((http (get_current_weather weatherApiKey http loads
        (dictGet wfs "q") (dictGet wfs "lang")).1).text) = Except.ok w) :
    (current_weather_endpoint apiToken weatherApiKey http loads t0 elapsed
        (PyVal.dict fs)).1 =
      Except.ok
        [("weather", w),
         ("event_start_datetime", PyVal.str (isoformat t0)),
         ("event_finished_datetime", PyVal.str (isoformat (t0 + elapsed))),
         ("event_duration", PyVal.str (durationStr t0 (t0 + elapsed)))] ∧
    t0 ≤ t0 + elapsed := by
  have hne1 : (dictGet fs "token").isNone = false := by rw [htok]; rfl
  have hm : pyEqOptStr (dictGet fs "token") apiToken = true := by
    rw [htok, hauth]; simp [pyEqOptStr]
  have hwt : pyTruthy (dictGet fs "weather") = true := by
    rw [hw]; simpa [pyTruthy, List.isEmpty_iff] using hne
  constructor
  · simp only [current_weather_endpoint]
    rw [authorize_pass apiToken fs _ hne1 hm hwt]
    simp only [add_execution_time_params_to_response, current_weather_endpoint_body,
      PyVal.get, hw]
    simp only [get_current_weather] at hdecode ⊢
    rw [hdecode]
    simp [dictUpdate, dictSet]
  · exact Nat.le_add_right t0 elapsed

open WeatherApp in
/-- Witness for C2 at a concrete request and provider. -/
theorem claim_C2_current_success_shape_witness :
    (current_weather_endpoint (some "T") (some "K")
        (fun _ => { status := 500, text := "j" })
        (fun _ => Except.ok (PyVal.str "W")) 3 4
        (PyVal.dict [("token", PyVal.str "T"),
                     ("weather", PyVal.dict [("q", PyVal.str "Paris")])])).1 =
      Except.ok
        [("weather", PyVal.str "W"),
         ("event_start_datetime", PyVal.str (isoformat 3)),
         ("event_finished_datetime", PyVal.str (isoformat (3 + 4))),
         ("event_duration", PyVal.str (durationStr 3 (3 + 4)))] ∧
    3 ≤ 3 + 4 :=
  claim_C2_current_success_shape (some "T") (some "K")
    (fun _ => { status := 500, text := "j" })
    (fun _ => Except.ok (PyVal.str "W")) 3 4
    [("token", PyVal.str "T"), ("weather", PyVal.dict [("q", PyVal.str "Paris")])]
    [("q", PyVal.str "Paris")] "T" (PyVal.str "W")
    rfl rfl rfl (by simp) rfl

namespace WeatherApp

theorem get_weather_forecast_snd (weatherApiKey : Option String)
    (http : ProviderRequest → HttpResponse)
    (loads : String → Except String PyVal) (q days lang : PyVal) :
    (get_weather_forecast weatherApiKey http loads q days lang).2 =
      match loads ((http (get_weather_forecast weatherApiKey http loads q days lang).1).text) with
      | Except.ok v => Except.ok v
      | Except.error m => Except.error (PyExn.jsonDecodeError m) := rfl

theorem get_weather_history_snd (weatherApiKey : Option String)
    (http : ProviderRequest → HttpResponse)
    (loads : String → Except String PyVal) (q dt end_dt lang : PyVal) :
    (get_weather_history weatherApiKey http loads q dt end_dt lang).2 =
      match loads ((http (get_weather_history weatherApiKey http loads q dt end_dt lang).1).text) with
      | Except.ok v => Except.ok v
      | Except.error m => Except.error (PyExn.jsonDecodeError m) := rfl

theorem get_current_weather_snd (weatherApiKey : Option String)
    (http : ProviderRequest → HttpResponse)
    (loads : String → Except String PyVal) (q lang : PyVal) :
    (get_current_weather weatherApiKey http loads q lang).2 =
      match loads ((http (get_current_weather weatherApiKey http loads q lang).1).text) with
      | Except.ok v => Except.ok v
      | Except.error m => Except.error (PyExn.jsonDecodeError m) := rfl

theorem forecast_endpoint_forwards (apiToken weatherApiKey : Option String)
    (http : ProviderRequest → HttpResponse)
    (loads : String → Except String PyVal)
    (t0 elapsed : Nat) (fs wfs : List (String × PyVal))
    (hne1 : (dictGet fs "token").isNone = false)
    (hm : pyEqOptStr (dictGet fs "token") apiToken = true)
    (hw : dictGet fs "weather" = PyVal.dict wfs)
    (hwt : pyTruthy (dictGet fs "weather") = true) :
    (weather_forecast_endpoint apiToken weatherApiKey http loads t0 elapsed
        (PyVal.dict fs)).2 =
      [(get_weather_forecast weatherApiKey http loads
          (dictGet wfs "q") (dictGet wfs "days") (dictGet wfs "lang")).1] ∧
    ∀ iu : InvalidUsage,
      (weather_forecast_endpoint apiToken weatherApiKey http loads t0 elapsed
          (PyVal.dict fs)).1 ≠ Except.error (PyExn.invalidUsage iu) := by
  simp only [weather_forecast_endpoint]
  rw [authorize_pass apiToken fs _ hne1 hm hwt]
  simp only [add_execution_time_params_to_response, weather_forecast_endpoint_body,
    PyVal.get, hw]
  rw [get_weather_forecast_snd]
  cases hload : loads ((http (get_weather_forecast weatherApiKey http loads
      (dictGet wfs "q") (dictGet wfs "days") (dictGet wfs "lang")).1).text) with
  | ok v => exact ⟨rfl, by intro iu h; simp at h⟩
  | error m => exact ⟨rfl, by intro iu h; simp at h⟩

theorem history_endpoint_forwards (apiToken weatherApiKey : Option String)
    (http : ProviderRequest → HttpResponse)
    (loads : String → Except String PyVal)
    (t0 elapsed : Nat) (fs wfs : List (String × PyVal))
    (hne1 : (dictGet fs "token").isNone = false)
    (hm : pyEqOptStr (dictGet fs "token") apiToken = true)
    (hw : dictGet fs "weather" = PyVal.dict wfs)
    (hwt : pyTruthy (dictGet fs "weather") = true) :
    (weather_history_endpoint apiToken weatherApiKey http loads t0 elapsed
        (PyVal.dict fs)).2 =
      [(get_weather_history weatherApiKey http loads
          (dictGet wfs "q") (dictGet wfs "dt") (dictGet wfs "end_dt")
          (dictGet wfs "lang")).1] ∧
    ∀ iu : InvalidUsage,
      (weather_history_endpoint apiToken weatherApiKey http loads t0 elapsed
          (PyVal.dict fs)).1 ≠ Except.error (PyExn.invalidUsage iu) := by
  simp only [weather_history_endpoint]
  rw [authorize_pass apiToken fs _ hne1 hm hwt]
  simp only [add_execution_time_params_to_response, weather_history_endpoint_body,
    PyVal.get, hw]
  rw [get_weather_history_snd]
  cases hload : loads ((http (get_weather_history weatherApiKey http loads
      (dictGet wfs "q") (dictGet wfs "dt") (dictGet wfs "end_dt")
      (dictGet wfs "lang")).1).text) with
  | ok v => exact ⟨rfl, by intro iu h; simp at h⟩
  | error m => exact ⟨rfl, by intro iu h; simp at h⟩

theorem get_weather_forecast_params (weatherApiKey : Option String)
    (http : ProviderRequest → HttpResponse)
    (loads : String → Except String PyVal) (q days lang : PyVal) :
    (get_weather_forecast weatherApiKey http loads q days lang).1.params.lookup "days" =
      some days := by
  simp only [get_weather_forecast]
  by_cases hl : pyTruthy lang = true
  · simp [hl, List.lookup]
  · simp [hl, List.lookup]

theorem get_weather_history_params (weatherApiKey : Option String)
    (http : ProviderRequest → HttpResponse)
    (loads : String → Except String PyVal) (q dt end_dt lang : PyVal) :
    (get_weather_history weatherApiKey http loads q dt end_dt lang).1.params.lookup "dt" =
      some dt ∧
    (get_weather_history weatherApiKey http loads q dt end_dt lang).1.params.lookup "end_dt" =
      (if pyTruthy end_dt then some end_dt else Option.none) := by
  simp only [get_weather_history]
  by_cases he : pyTruthy end_dt = true <;> by_cases hl : pyTruthy lang = true <;>
    simp [he, hl, List.lookup]

end WeatherApp

open WeatherApp in
/-- C3: for every authorized forecast or history request, `days`, `dt` and
`end_dt` are forwarded to the provider call verbatim (the raw decoded body
values appear unchanged among the outbound query parameters, `end_dt` when
truthy), with no local validation: the endpoints issue exactly one provider
request whatever the `days` value is — out-of-range values included — and
never produce a structured `InvalidUsage` rejection. -/
theorem claim_C3_params_forwarded_verbatim
    (apiToken weatherApiKey : Option String)
    (http : ProviderRequest → HttpResponse)
    (loads : String → Except String PyVal)
    (t0 elapsed : Nat) (fs wfs : List (String × PyVal)) (tok : String)
    (htok : dictGet fs "token" = PyVal.str tok)
    (hauth : apiToken = some tok)
    (hw : dictGet fs "weather" = PyVal.dict wfs)
    (hne : wfs ≠ []) :
    ((weather_forecast_endpoint apiToken weatherApiKey http loads t0 elapsed
        (PyVal.dict fs)).2.length = 1 ∧
     (∀ r ∈ (weather_forecast_endpoint apiToken weatherApiKey http loads t0 elapsed
        (PyVal.dict fs)).2,
        r.params.lookup "days" = some (dictGet wfs "days")) ∧
     (∀ iu : InvalidUsage,
        (weather_forecast_endpoint apiToken weatherApiKey http loads t0 elapsed
          (PyVal.dict fs)).1 ≠ Except.error (PyExn.invalidUsage iu))) ∧
    ((weather_history_endpoint apiToken weatherApiKey http loads t0 elapsed
        (PyVal.dict fs)).2.length = 1 ∧
     (∀ r ∈ (weather_history_endpoint apiToken weatherApiKey http loads t0 elapsed
        (PyVal.dict fs)).2,
        r.params.lookup "dt" = some (dictGet wfs "dt") ∧
        r.params.lookup "end_dt" =
          (if pyTruthy (dictGet wfs "end_dt") then some (dictGet wfs "end_dt")
           else Option.none)) ∧
     (∀ iu : InvalidUsage,
        (weather_history_endpoint apiToken weatherApiKey http loads t0 elapsed
          (PyVal.dict fs)).1 ≠ Except.error (PyExn.invalidUsage iu))) := by
  have hne1 : (dictGet fs "token").isNone = false := by rw [htok]; rfl
  have hm : pyEqOptStr (dictGet fs "token") apiToken = true := by
    rw [htok, hauth]; simp [pyEqOptStr]
  have hwt : pyTruthy (dictGet fs "weather") = true := by
    rw [hw]; simpa [pyTruthy, List.isEmpty_iff] using hne
  obtain ⟨hfc, hfn⟩ := forecast_endpoint_forwards apiToken weatherApiKey http loads
    t0 elapsed fs wfs hne1 hm hw hwt
  obtain ⟨hhc, hhn⟩ := history_endpoint_forwards apiToken weatherApiKey http loads
    t0 elapsed fs wfs hne1 hm hw hwt
  refine ⟨⟨by rw [hfc]; rfl, ?_, hfn⟩, ⟨by rw [hhc]; rfl, ?_, hhn⟩⟩
  · intro r hr
    rw [hfc] at hr
    simp only [List.mem_singleton] at hr
    subst hr
    exact get_weather_forecast_params weatherApiKey http loads _ _ _
  · intro r hr
    rw [hhc] at hr
    simp only [List.mem_singleton] at hr
    subst hr
    exact get_weather_history_params weatherApiKey http loads _ _ _ _

open WeatherApp in
/-- Witness for C3: a forecast request with `days` = 100, far outside the
documented 1–14 range, is still forwarded verbatim and not rejected. -/
theorem claim_C3_params_forwarded_verbatim_witness :
    (∀ r ∈ (weather_forecast_endpoint (some "T") (some "K")
        (fun _ => { status := 400, text := "e" })
        (fun _ => Except.ok PyVal.none) 0 0
        (PyVal.dict [("token", PyVal.str "T"),
          ("weather", PyVal.dict [("q", PyVal.str "P"), ("days", PyVal.int 100)])])).2,
        r.params.lookup "days" = some (PyVal.int 100)) ∧
    (∀ iu : InvalidUsage,
        (weather_forecast_endpoint (some "T") (some "K")
          (fun _ => { status := 400, text := "e" })
          (fun _ => Except.ok PyVal.none) 0 0
          (PyVal.dict [("token", PyVal.str "T"),
            ("weather", PyVal.dict [("q", PyVal.str "P"), ("days", PyVal.int 100)])])).1 ≠
          Except.error (PyExn.invalidUsage iu)) :=
  ⟨fun r hr => (claim_C3_params_forwarded_verbatim (some "T") (some "K")
      (fun _ => { status := 400, text := "e" })
      (fun _ => Except.ok PyVal.none) 0 0
      [("token", PyVal.str "T"),
       ("weather", PyVal.dict [("q", PyVal.str "P"), ("days", PyVal.int 100)])]
      [("q", PyVal.str "P"), ("days", PyVal.int 100)] "T"
      rfl rfl rfl (by simp)).1.2.1 r hr,
   (claim_C3_params_forwarded_verbatim (some "T") (some "K")
      (fun _ => { status := 400, text := "e" })
      (fun _ => Except.ok PyVal.none) 0 0
      [("token", PyVal.str "T"),
       ("weather", PyVal.dict [("q", PyVal.str "P"), ("days", PyVal.int 100)])]
      [("q", PyVal.str "P"), ("days", PyVal.int 100)] "T"
      rfl rfl rfl (by simp)).1.2.2⟩

open WeatherApp in
/-- C4: no provider lookup inspects the provider's HTTP status code — two
providers whose responses agree on body text but may differ arbitrarily in
status produce identical results for all three lookups; a body that
decodes successfully is returned as-is, and a body that is not valid JSON
makes the lookup fail with the unhandled `JSONDecodeError` (a generic 500
server fault with no structured body), never with a structured
`InvalidUsage` error. -/
theorem claim_C4_provider_status_never_inspected
    (weatherApiKey : Option String)
    (http1 http2 : ProviderRequest → HttpResponse)
    (loads : String → Except String PyVal)
    (q days dt end_dt lang : PyVal)
    (hsame : ∀ r, (http1 r).text = (http2 r).text) :
    ((get_current_weather weatherApiKey http1 loads q lang).2 =
      (get_current_weather weatherApiKey http2 loads q lang).2) ∧
    ((get_weather_forecast weatherApiKey http1 loads q days lang).2 =
      (get_weather_forecast weatherApiKey http2 loads q days lang).2) ∧
    ((get_weather_history weatherApiKey http1 loads q dt end_dt lang).2 =
      (get_weather_history weatherApiKey http2 loads q dt end_dt lang).2) ∧
    (∀ w, loads ((http1 (get_current_weather weatherApiKey http1 loads q lang).1).text) =
        Except.ok w →
      (get_current_weather weatherApiKey http1 loads q lang).2 = Except.ok w) ∧
    (∀ m, loads ((http1 (get_current_weather weatherApiKey http1 loads q lang).1).text) =
        Except.error m →
      (get_current_weather weatherApiKey http1 loads q lang).2 =
        Except.error (PyExn.jsonDecodeError m) ∧
      http_response_of (Except.error (PyExn.jsonDecodeError m)) = (500, []) ∧
      ∀ iu : InvalidUsage, PyExn.jsonDecodeError m ≠ PyExn.invalidUsage iu) := by
  refine ⟨?_, ?_, ?_, ?_, ?_⟩
  · rw [get_current_weather_snd weatherApiKey http1 loads q lang,
        get_current_weather_snd weatherApiKey http2 loads q lang]
    rw [show (get_current_weather weatherApiKey http2 loads q lang).1 =
        (get_current_weather weatherApiKey http1 loads q lang).1 from rfl]
    rw [hsame ((get_current_weather weatherApiKey http1 loads q lang).1)]
  · rw [get_weather_forecast_snd weatherApiKey http1 loads q days lang,
        get_weather_forecast_snd weatherApiKey http2 loads q days lang]
    rw [show (get_weather_forecast weatherApiKey http2 loads q days lang).1 =
        (get_weather_forecast weatherApiKey http1 loads q days lang).1 from rfl]
    rw [hsame ((get_weather_forecast weatherApiKey http1 loads q days lang).1)]
  · rw [get_weather_history_snd weatherApiKey http1 loads q dt end_dt lang,
        get_weather_history_snd weatherApiKey http2 loads q dt end_dt lang]
    rw [show (get_weather_history weatherApiKey http2 loads q dt end_dt lang).1 =
        (get_weather_history weatherApiKey http1 loads q dt end_dt lang).1 from rfl]
    rw [hsame ((get_weather_history weatherApiKey http1 loads q dt end_dt lang).1)]
  · intro w hok
    rw [get_current_weather_snd, hok]
  · intro m herr
    refine ⟨?_, rfl, ?_⟩
    · rw [get_current_weather_snd, herr]
    · intro iu h
      cases h

open WeatherApp in
/-- Witness for C4: two providers returning the same non-JSON body under
different status codes. -/
theorem claim_C4_provider_status_never_inspected_witness :
    ((get_current_weather (some "K") (fun _ => { status := 200, text := "oops" })
        (fun _ => Except.error "Expecting value") (PyVal.str "P") PyVal.none).2 =
      (get_current_weather (some "K") (fun _ => { status := 503, text := "oops" })
        (fun _ => Except.error "Expecting value") (PyVal.str "P") PyVal.none).2) ∧
    ((get_current_weather (some "K") (fun _ => { status := 200, text := "oops" })
        (fun _ => Except.error "Expecting value") (PyVal.str "P") PyVal.none).2 =
      Except.error (PyExn.jsonDecodeError "Expecting value") ∧
     http_response_of (Except.error (PyExn.jsonDecodeError "Expecting value")) =
       (500, []) ∧
     ∀ iu : InvalidUsage,
       PyExn.jsonDecodeError "Expecting value" ≠ PyExn.invalidUsage iu) :=
  ⟨(claim_C4_provider_status_never_inspected (some "K")
      (fun _ => { status := 200, text := "oops" })
      (fun _ => { status := 503, text := "oops" })
      (fun _ => Except.error "Expecting value")
      (PyVal.str "P") PyVal.none PyVal.none PyVal.none PyVal.none
      (fun _ => rfl)).1,
   (claim_C4_provider_status_never_inspected (some "K")
      (fun _ => { status := 200, text := "oops" })
      (fun _ => { status := 503, text := "oops" })
      (fun _ => Except.error "Expecting value")
      (PyVal.str "P") PyVal.none PyVal.none PyVal.none PyVal.none
      (fun _ => rfl)).2.2.2.2 "Expecting value" rfl⟩

namespace WeatherApp

theorem current_endpoint_forwards (apiToken weatherApiKey : Option String)
    (http : ProviderRequest → HttpResponse)
    (loads : String → Except String PyVal)
    (t0 elapsed : Nat) (fs wfs : List (String × PyVal))
    (hne1 : (dictGet fs "token").isNone = false)
    (hm : pyEqOptStr (dictGet fs "token") apiToken = true)
    (hw : dictGet fs "weather" = PyVal.dict wfs)
    (hwt : pyTruthy (dictGet fs "weather") = true) :
    (current_weather_endpoint apiToken weatherApiKey http loads t0 elapsed
        (PyVal.dict fs)).2 =
      [(get_current_weather weatherApiKey http loads
          (dictGet wfs "q") (dictGet wfs "lang")).1] := by
  simp only [current_weather_endpoint]
  rw [authorize_pass apiToken fs _ hne1 hm hwt]
  simp only [add_execution_time_params_to_response, current_weather_endpoint_body,
    PyVal.get, hw]
  rw [get_current_weather_snd]
  cases hload : loads ((http (get_current_weather weatherApiKey http loads
      (dictGet wfs "q") (dictGet wfs "lang")).1).text) with
  | ok v => rfl
  | error m => rfl

end WeatherApp

open WeatherApp in
/-- C8 counterexample: the claim says each lookup issues an HTTPS GET, but
the base URL constant in the source is plain `http://`, so the issued
request's URL does not use the https scheme. -/
theorem claim_C8_counterexample :
    (get_current_weather (some "K") (fun _ => { status := 200, text := "x" })
        (fun _ => Except.ok PyVal.none) (PyVal.str "P") PyVal.none).1.url =
      "http://api.weatherapi.com/v1/current.json" ∧
    (get_current_weather (some "K") (fun _ => { status := 200, text := "x" })
        (fun _ => Except.ok PyVal.none) (PyVal.str "P") PyVal.none).1.url.toList.take 5 ≠
      "https".toList := by
  exact ⟨rfl, by decide⟩

open WeatherApp in
/-- C8 (amended): every provider lookup issues exactly one synchronous
plain-HTTP (not HTTPS) GET request to the fixed base URL
`http://api.weatherapi.com/v1` with the configured API key attached as the
query parameter named `key`, using the path suffix `current.json`,
`forecast.json` or `history.json` according to the operation; under an
authorized well-formed request each endpoint issues exactly one such
request. -/
theorem claim_C8_one_get_request_per_lookup
    (apiToken weatherApiKey : Option String)
    (http : ProviderRequest → HttpResponse)
    (loads : String → Except String PyVal)
    (t0 elapsed : Nat) (fs wfs : List (String × PyVal)) (tok : String)
    (q days dt end_dt lang : PyVal)
    (htok : dictGet fs "token" = PyVal.str tok)
    (hauth : apiToken = some tok)
    (hw : dictGet fs "weather" = PyVal.dict wfs)
    (hne : wfs ≠ []) :
    ((get_current_weather weatherApiKey http loads q lang).1.method = "GET" ∧
     (get_current_weather weatherApiKey http loads q lang).1.url =
       url_base_url ++ "/" ++ "current.json" ∧
     (get_current_weather weatherApiKey http loads q lang).1.params.lookup "key" =
       some (pyOfEnv weatherApiKey)) ∧
    ((get_weather_forecast weatherApiKey http loads q days lang).1.method = "GET" ∧
     (get_weather_forecast weatherApiKey http loads q days lang).1.url =
       url_base_url ++ "/" ++ "forecast.json" ∧
     (get_weather_forecast weatherApiKey http loads q days lang).1.params.lookup "key" =
       some (pyOfEnv weatherApiKey)) ∧
    ((get_weather_history weatherApiKey http loads q dt end_dt lang).1.method = "GET" ∧
     (get_weather_history weatherApiKey http loads q dt end_dt lang).1.url =
       url_base_url ++ "/" ++ "history.json" ∧
     (get_weather_history weatherApiKey http loads q dt end_dt lang).1.params.lookup "key" =
       some (pyOfEnv weatherApiKey)) ∧
    ((current_weather_endpoint apiToken weatherApiKey http loads t0 elapsed
        (PyVal.dict fs)).2.length = 1 ∧
     (weather_forecast_endpoint apiToken weatherApiKey http loads t0 elapsed
        (PyVal.dict fs)).2.length = 1 ∧
     (weather_history_endpoint apiToken weatherApiKey http loads t0 elapsed
        (PyVal.dict fs)).2.length = 1) := by
  have hne1 : (dictGet fs "token").isNone = false := by rw [htok]; rfl
  have hm : pyEqOptStr (dictGet fs "token") apiToken = true := by
    rw [htok, hauth]; simp [pyEqOptStr]
  have hwt : pyTruthy (dictGet fs "weather") = true := by
    rw [hw]; simpa [pyTruthy, List.isEmpty_iff] using hne
  refine ⟨⟨rfl, rfl, ?_⟩, ⟨rfl, rfl, ?_⟩, ⟨rfl, rfl, ?_⟩, ?_, ?_, ?_⟩
  · simp only [get_current_weather]
    by_cases hl : pyTruthy lang = true <;> simp [hl, List.lookup]
  · simp only [get_weather_forecast]
    by_cases hl : pyTruthy lang = true <;> simp [hl, List.lookup]
  · simp only [get_weather_history]
    by_cases he : pyTruthy end_dt = true <;> by_cases hl : pyTruthy lang = true <;>
      simp [he, hl, List.lookup]
  · rw [current_endpoint_forwards apiToken weatherApiKey http loads t0 elapsed fs wfs
      hne1 hm hw hwt]
    rfl
  · rw [(forecast_endpoint_forwards apiToken weatherApiKey http loads t0 elapsed fs wfs
      hne1 hm hw hwt).1]
    rfl
  · rw [(history_endpoint_forwards apiToken weatherApiKey http loads t0 elapsed fs wfs
      hne1 hm hw hwt).1]
    rfl

open WeatherApp in
/-- Witness for C8 at a concrete authorized request. -/
theorem claim_C8_one_get_request_per_lookup_witness :
    ((get_current_weather (some "K") (fun _ => { status := 200, text := "x" })
        (fun _ => Except.ok PyVal.none) (PyVal.str "P") PyVal.none).1.method = "GET" ∧
     (get_current_weather (some "K") (fun _ => { status := 200, text := "x" })
        (fun _ => Except.ok PyVal.none) (PyVal.str "P") PyVal.none).1.url =
       url_base_url ++ "/" ++ "current.json" ∧
     (get_current_weather (some "K") (fun _ => { status := 200, text := "x" })
        (fun _ => Except.ok PyVal.none) (PyVal.str "P") PyVal.none).1.params.lookup "key" =
       some (pyOfEnv (some "K"))) ∧
    (current_weather_endpoint (some "T") (some "K")
        (fun _ => { status := 200, text := "x" })
        (fun _ => Except.ok PyVal.none) 0 0
        (PyVal.dict [("token", PyVal.str "T"),
          ("weather", PyVal.dict [("q", PyVal.str "P")])])).2.length = 1 :=
  ⟨(claim_C8_one_get_request_per_lookup (some "T") (some "K")
      (fun _ => { status := 200, text := "x" })
      (fun _ => Except.ok PyVal.none) 0 0
      [("token", PyVal.str "T"), ("weather", PyVal.dict [("q", PyVal.str "P")])]
      [("q", PyVal.str "P")] "T"
      (PyVal.str "P") PyVal.none PyVal.none PyVal.none PyVal.none
      rfl rfl rfl (by simp)).1,
   (claim_C8_one_get_request_per_lookup (some "T") (some "K")
      (fun _ => { status := 200, text := "x" })
      (fun _ => Except.ok PyVal.none) 0 0
      [("token", PyVal.str "T"), ("weather", PyVal.dict [("q", PyVal.str "P")])]
      [("q", PyVal.str "P")] "T"
      (PyVal.str "P") PyVal.none PyVal.none PyVal.none PyVal.none
      rfl rfl rfl (by simp)).2.2.2.1⟩

open WeatherApp in
/-- C10: the optional parameters `lang` (all three lookups) and `end_dt`
(history) appear among the outbound query parameters exactly when their
value is truthy; in particular an empty string is falsy, so it is omitted
exactly as if the parameter had been absent. -/
theorem claim_C10_optional_params_iff_truthy
    (weatherApiKey : Option String)
    (http : ProviderRequest → HttpResponse)
    (loads : String → Except String PyVal)
    (q days dt end_dt lang : PyVal) :
    ((get_current_weather weatherApiKey http loads q lang).1.params.lookup "lang" =
      (if pyTruthy lang then some lang else Option.none)) ∧
    ((get_weather_forecast weatherApiKey http loads q days lang).1.params.lookup "lang" =
      (if pyTruthy lang then some lang else Option.none)) ∧
    ((get_weather_history weatherApiKey http loads q dt end_dt lang).1.params.lookup "lang" =
      (if pyTruthy lang then some lang else Option.none)) ∧
    ((get_weather_history weatherApiKey http loads q dt end_dt lang).1.params.lookup "end_dt" =
      (if pyTruthy end_dt then some end_dt else Option.none)) ∧
    pyTruthy (PyVal.str "") = false := by
  refine ⟨?_, ?_, ?_, ?_, rfl⟩
  · simp only [get_current_weather]
    by_cases hl : pyTruthy lang = true <;> simp [hl, List.lookup]
  · simp only [get_weather_forecast]
    by_cases hl : pyTruthy lang = true <;> simp [hl, List.lookup]
  · simp only [get_weather_history]
    by_cases he : pyTruthy end_dt = true <;> by_cases hl : pyTruthy lang = true <;>
      simp [he, hl, List.lookup]
  · exact (get_weather_history_params weatherApiKey http loads q dt end_dt lang).2
